import Mathlib

/-!
Verification of the research-agent workflow engine of
`gemini-fullstack-langgraph-quickstart` (backend/src/agent).

The Python sources under `backend/src/agent` are shallowly embedded below:

* `state.py` — the shared run state (`OverallState` and the per-node
  TypedDicts) together with the per-field reducer annotations
  (`operator.add` for the append-class list fields) becomes `RunState`,
  `PartialUpdate` and `applyUpdate`.
* `models.py` — `get_llm` becomes `get_llm` (raising is modelled with
  `Except`).
* `web_search.py` — `simple_web_search`, `format_search_results_for_llm`
  and `perform_web_search_with_llm` are embedded with the network calls
  (DuckDuckGo text search, image search, LLM invocation) turned into
  explicit oracle arguments of `Except` type: `.error` models the Python
  call raising an exception.  The retry/backoff/rate-limit machinery of
  the image search is time- and randomness-dependent and is absorbed into
  the image-search oracle, which yields the final image list (or a raise).
* `graph.py` — the nodes `route_to_tool`, `generate_query`,
  `continue_to_web_research`, `web_research`, `reflection`,
  `evaluate_research`, `finalize_answer`, `execute_mcp_tool` and the
  topology wired by `create_agent` become the functions and the executor
  below.  External HTTP calls of `execute_mcp_tool` are oracle arguments
  and the list of attempted calls is returned explicitly, so that
  "performs exactly one external call" is a statement about the model.

Python truthiness (`if not x`, `x or y`) on optional strings and objects
is modelled explicitly: `None` and the empty string are falsy, a pydantic
model object is always truthy.  Prompt string formatting is irrelevant to
the claims and is absorbed into the oracles.  JSON serialization
(`json.dumps(..., indent=2)`) is modelled by a simple serializer;
the claims depend only on which value is serialized, not on the
byte-exact layout.
-/

namespace Agent

/-- Decidable equality of `Except` results, for evaluating the model on
concrete inputs. -/
instance {ε α : Type} [DecidableEq ε] [DecidableEq α] : DecidableEq (Except ε α) := fun a b =>
  match a, b with
  | .ok x, .ok y =>
    if h : x = y then .isTrue (by rw [h]) else .isFalse (by intro hc; cases hc; exact h rfl)
  | .error x, .error y =>
    if h : x = y then .isTrue (by rw [h]) else .isFalse (by intro hc; cases hc; exact h rfl)
  | .ok _, .error _ => .isFalse (by intro hc; cases hc)
  | .error _, .ok _ => .isFalse (by intro hc; cases hc)

/-- Python truthiness of an optional string: `None` and `""` are falsy. -/
def truthyStr : Option String → Bool
  | none => false
  | some s => !(s = "")

/-- Python `a or b` for an optional string versus a default string. -/
def pyOr (a : Option String) (b : String) : String :=
  match a with
  | none => b
  | some s => if s = "" then b else s

/-- Environment variables read via `os.getenv`; `none` models an unset
variable. -/
structure Env where
  gemini_api_key : Option String
  smithery_api_key : Option String
  ollama_base_url : Option String
deriving DecidableEq, Repr

/-- Modelled from the spec: `agent/configuration.py` (the `Configuration`
class) is not part of the provided sources; §3 of the spec records the
configuration values supplied at run start (`max_research_loops`
integer > 0, the initial query count, the provider and reasoning model
defaults consumed by the nodes via `Configuration.from_runnable_config`). -/
structure Configuration where
  provider : String
  reasoning_model : String
  number_of_initial_queries : Nat
  max_research_loops : Nat
deriving DecidableEq, Repr

/-- An LLM handle as constructed by `models.py::get_llm`. -/
structure LLM where
  provider : String
  model_name : String
  base_url : String
deriving DecidableEq, Repr

/-- `models.py::get_llm`.  `provider = "gemini"` requires the
`GEMINI_API_KEY` environment variable (`if not api_key: raise ValueError`),
`provider = "ollama"` needs no key, anything else raises. -/
def get_llm (model_name : String) (provider : String) (env : Env) : Except String LLM :=
  if provider = "gemini" then
    if truthyStr env.gemini_api_key then
      .ok { provider := "gemini", model_name := model_name, base_url := "" }
    else
      .error "GEMINI_API_KEY is not set"
  else if provider = "ollama" then
    .ok { provider := "ollama", model_name := model_name
          base_url := pyOr env.ollama_base_url "http://localhost:11434" }
  else
    .error ("Unsupported provider: " ++ provider ++ ". Supported providers: gemini, ollama")

/-- `tools_and_schemas.py::McpToolRequest` (a pydantic model; as an object
it is always truthy).  The `payload` dict is modelled as an association
list of string pairs. -/
structure McpToolRequest where
  tool_name : String
  payload : List (String × String)
deriving DecidableEq, Repr

/-- A Python value as handled by `execute_mcp_tool` when serializing the
MCP response (`dict`, `list`, `str`, anything else).  Nested JSON values
are abstracted as their serialized text. -/
inductive PyVal where
  | pstr : String → PyVal
  | pdict : List (String × String) → PyVal
  | plist : List String → PyVal
  | pother : String → PyVal
deriving DecidableEq, Repr

/-- `tools_and_schemas.py::McpToolResponse`. -/
structure McpToolResponse where
  status : String
  data : PyVal
deriving DecidableEq, Repr

/-- `tools_and_schemas.py::McpServerInfo`. -/
structure McpServerInfo where
  qualified_name : String
  display_name : String
  description : String
  tools : List String
  config_schema : List (String × String)
deriving DecidableEq, Repr

/-- A chat message (`langchain` message; `AIMessage` has role "ai"). -/
structure Message where
  role : String
  content : String
deriving DecidableEq, Repr

/-- A citation record as built by `web_search.py` (`sources_gathered`). -/
structure Source where
  label : String
  value : String
  short_url : String
deriving DecidableEq, Repr

/-- An image record as built by `web_search.py`. -/
structure ImageResult where
  url : String
  title : String
  source : String
  alt : String
deriving DecidableEq, Repr

/-- The shared run state.  Fields are the channel union of the TypedDicts
of `state.py` (`OverallState`, `ReflectionState`, `QueryGenerationState`)
as listed in §3 of the spec (RunState table): `query_list`,
`is_sufficient`, `knowledge_gap`, `follow_up_queries`, `next_node` and
`provider` are carried by the same shared state the nodes exchange.
`Option` fields model keys that may be absent (read with `.get`). -/
structure RunState where
  messages : List Message
  available_mcp_servers : List McpServerInfo
  active_mcp_configurations : List (String × List (String × String))
  current_mcp_tool_request : Option McpToolRequest
  target_mcp_server_qualified_name : Option String
  mcp_tool_response : Option McpToolResponse
  search_query : List String
  web_research_result : List String
  sources_gathered : List Source
  images : List ImageResult
  initial_search_query_count : Option Nat
  max_research_loops : Nat
  research_loop_count : Option Nat
  reasoning_model : Option String
  provider : Option String
  query_list : List String
  is_sufficient : Option Bool
  knowledge_gap : Option String
  follow_up_queries : List String
  next_node : Option String
deriving DecidableEq, Repr

/-- A partial state update as returned by a node.  Append-class fields
(the `Annotated[list, operator.add]` fields of `state.py`, plus
`messages` via `add_messages` and `follow_up_queries` via the
`ReflectionState` annotation) default to `[]` (nothing appended); the
overwrite fields are `Option`s, `none` meaning the key is absent from the
returned dict. -/
structure PartialUpdate where
  messages : List Message := []
  search_query : List String := []
  web_research_result : List String := []
  sources_gathered : List Source := []
  images : List ImageResult := []
  follow_up_queries : List String := []
  available_mcp_servers : Option (List McpServerInfo) := none
  active_mcp_configurations : Option (List (String × List (String × String))) := none
  current_mcp_tool_request : Option McpToolRequest := none
  target_mcp_server_qualified_name : Option String := none
  mcp_tool_response : Option McpToolResponse := none
  initial_search_query_count : Option Nat := none
  max_research_loops : Option Nat := none
  research_loop_count : Option Nat := none
  reasoning_model : Option String := none
  provider : Option String := none
  query_list : Option (List String) := none
  is_sufficient : Option Bool := none
  knowledge_gap : Option String := none
  next_node : Option String := none
deriving DecidableEq, Repr

/-- Overwrite-merge for a single field: a value present in the update
replaces the current one, an absent key keeps it. -/
def ow {α : Type} (u : Option α) (s : α) : α :=
  match u with
  | some v => v
  | none => s

/-- Modelled from the spec (§4.1) together with the reducer annotations of
`state.py`: the executor merges a node's partial update into the shared
state field by field — `operator.add` fields are appended to
(order-preserving concatenation; `add_messages` likewise appends new
messages), every other field is overwritten when the update carries it. -/
def applyUpdate (s : RunState) (u : PartialUpdate) : RunState :=
  { messages := s.messages ++ u.messages
    search_query := s.search_query ++ u.search_query
    web_research_result := s.web_research_result ++ u.web_research_result
    sources_gathered := s.sources_gathered ++ u.sources_gathered
    images := s.images ++ u.images
    follow_up_queries := s.follow_up_queries ++ u.follow_up_queries
    available_mcp_servers := ow u.available_mcp_servers s.available_mcp_servers
    active_mcp_configurations := ow u.active_mcp_configurations s.active_mcp_configurations
    current_mcp_tool_request := ow (u.current_mcp_tool_request.map some) s.current_mcp_tool_request
    target_mcp_server_qualified_name :=
      ow (u.target_mcp_server_qualified_name.map some) s.target_mcp_server_qualified_name
    mcp_tool_response := ow (u.mcp_tool_response.map some) s.mcp_tool_response
    initial_search_query_count := ow (u.initial_search_query_count.map some) s.initial_search_query_count
    max_research_loops := ow u.max_research_loops s.max_research_loops
    research_loop_count := ow (u.research_loop_count.map some) s.research_loop_count
    reasoning_model := ow (u.reasoning_model.map some) s.reasoning_model
    provider := ow (u.provider.map some) s.provider
    query_list := ow u.query_list s.query_list
    is_sufficient := ow (u.is_sufficient.map some) s.is_sufficient
    knowledge_gap := ow (u.knowledge_gap.map some) s.knowledge_gap
    next_node := ow (u.next_node.map some) s.next_node }

/-- `graph.py::route_to_tool`: the routing node.  Python truthiness of
`state.get(...)`: the pydantic request object is truthy iff present, the
server name must be present and non-empty. -/
def route_to_tool (s : RunState) : PartialUpdate :=
  if truthyStr s.target_mcp_server_qualified_name ∧ s.current_mcp_tool_request.isSome then
    { next_node := some "execute_mcp_tool" }
  else
    { next_node := some "generate_query" }

/-- A raw DuckDuckGo text result as consumed by
`web_search.py::simple_web_search` (after the defaulting
`result.get('title', '')` etc.). -/
structure RawResult where
  title : String
  href : String
  body : String
deriving DecidableEq, Repr

/-- One filtered search result built by `simple_web_search`. -/
structure SearchItem where
  title : String
  url : String
  snippet : String
  label : String
  value : String
  short_url : String
deriving DecidableEq, Repr

/-- `web_search.py::simple_web_search`.  The oracle argument is the raw
outcome of the DuckDuckGo call (`.error` = the call raised, including
`ImportError`); both failure branches return `[]`.  Entries with an empty
title, url or snippet are skipped, but the citation index `[i+1]` counts
over the raw enumeration, as in the source. -/
def simple_web_search (ddgs : Except String (List RawResult)) : List SearchItem :=
  match ddgs with
  | .error _ => []
  | .ok rs =>
    rs.enum.filterMap fun p =>
      let i := p.1
      let r := p.2
      if r.title = "" ∨ r.href = "" ∨ r.body = "" then none
      else
        some { title := r.title, url := r.href, snippet := r.body
               label := if r.title.length > 50 then r.title.take 50 ++ "..." else r.title
               value := r.href
               short_url := "[" ++ toString (i + 1) ++ "]" }

/-- `web_search.py::format_search_results_for_llm`. -/
def format_search_results_for_llm (results : List SearchItem) (query : String) : String :=
  if results = [] then
    "No search results found for query: " ++ query
  else
    results.enum.foldl
      (fun acc p =>
        acc ++ toString (p.1 + 1) ++ ". **" ++ p.2.title ++ "**\n" ++
          "   URL: " ++ p.2.url ++ "\n" ++
          "   Summary: " ++ p.2.snippet ++ "\n" ++
          "   Citation: " ++ p.2.short_url ++ "\n\n")
      ("Search results for '" ++ query ++ "':\n\n")

/-- The dictionary returned by `perform_web_search_with_llm`. -/
structure WebOut where
  sources_gathered : List Source
  search_query : String
  web_research_result : String
  images : List ImageResult
deriving DecidableEq, Repr

/-- `web_search.py::perform_web_search_with_llm`.  Oracles: `textSearch`
is the raw DuckDuckGo text call (handled by `simple_web_search`, which
never lets it escape), `imageSearch` is the outcome of `search_images`
(the `asyncio.gather(..., return_exceptions=True)` isinstance check turns
a raise into `[]`; its internal retry/backoff is absorbed into the
oracle), `llmResponse` is `llm.invoke` on the formatted prompt (a raise
falls back to the formatted results).  Every path returns a well-formed
result with exactly one `web_research_result` string. -/
def perform_web_search_with_llm (search_query : String) (include_images : Bool)
    (textSearch : Except String (List RawResult))
    (imageSearch : Except String (List ImageResult))
    (llmResponse : Except String String) : WebOut :=
  let search_results := simple_web_search textSearch
  let image_results : List ImageResult :=
    if include_images then
      match imageSearch with
      | .error _ => []
      | .ok l => l
    else []
  if search_results = [] ∧ image_results = [] then
    { sources_gathered := [], search_query := search_query
      web_research_result := "No search results found for: " ++ search_query, images := [] }
  else
    let formatted_results := format_search_results_for_llm search_results search_query
    let sources_gathered := search_results.map fun r =>
      { label := r.label, value := r.value, short_url := r.short_url }
    match llmResponse with
    | .ok content =>
      { sources_gathered := sources_gathered, search_query := search_query
        web_research_result := content, images := image_results }
    | .error _ =>
      { sources_gathered := sources_gathered, search_query := search_query
        web_research_result := formatted_results, images := image_results }

/-- `state.py::WebSearchState`: the branch-local input a `Send` carries. -/
structure WebSearchState where
  search_query : String
  id : Nat
deriving DecidableEq, Repr

/-- `graph.py::web_research`.  The `Send` payload carries only
`search_query` and `id`, so `state.get("provider")` and
`state.get("reasoning_model")` are `None` and fall back to the
configuration.  `get_llm` may raise (missing credential); the
search/image/LLM failures are converted inside
`perform_web_search_with_llm`. -/
def web_research (cfg : Configuration) (env : Env)
    (textSearch : Except String (List RawResult))
    (imageSearch : Except String (List ImageResult))
    (llmResponse : Except String String)
    (st : WebSearchState) : Except String PartialUpdate :=
  let provider := cfg.provider
  let reasoning_model := cfg.reasoning_model
  (get_llm reasoning_model provider env).map fun _ =>
    let r := perform_web_search_with_llm st.search_query true textSearch imageSearch llmResponse
    { sources_gathered := r.sources_gathered
      search_query := [r.search_query]
      web_research_result := [r.web_research_result]
      images := r.images }

/-- `state.py::QueryGenerationState`. -/
structure QueryGenerationState where
  query_list : List String
deriving DecidableEq, Repr

/-- `graph.py::generate_query`.  The structured LLM call is the oracle
`queryGen` (the `.query` field of the structured result); the node-local
defaulting of `initial_search_query_count` feeds only the prompt, which
the oracle absorbs.  The returned update carries only `query_list`. -/
def generate_query (cfg : Configuration) (env : Env)
    (queryGen : RunState → List String) (s : RunState) : Except String PartialUpdate :=
  let provider := pyOr s.provider cfg.provider
  let reasoning_model := pyOr s.reasoning_model cfg.reasoning_model
  (get_llm reasoning_model provider env).map fun _ =>
    { query_list := some (queryGen s) }

/-- A `langgraph` `Send`: the target node name with the branch-local
state. -/
structure Send where
  node : String
  arg : WebSearchState
deriving DecidableEq, Repr

/-- `graph.py::continue_to_web_research`: one `Send` per query, with the
branch index from `enumerate`. -/
def continue_to_web_research (st : QueryGenerationState) : List Send :=
  st.query_list.enum.map fun p =>
    { node := "web_research", arg := { search_query := p.2, id := p.1 } }

/-- `tools_and_schemas.py::Reflection`: the structured reflection result. -/
structure ReflectionResult where
  is_sufficient : Bool
  knowledge_gap : String
  follow_up_queries : List String
deriving DecidableEq, Repr

/-- `graph.py::reflection`.  The statement
`state["research_loop_count"] = state.get("research_loop_count", 0) + 1`
mutates only the node-local dict: the incremented value steers the bound
check below but is not part of the returned update (neither branch
returns a `research_loop_count` key).  The returned `Bool` records
whether the external text-completion capability was invoked. -/
def reflection (cfg : Configuration) (env : Env)
    (reflLLM : RunState → ReflectionResult) (s : RunState) :
    Except String (PartialUpdate × Bool) :=
  let research_loop_count := (s.research_loop_count.getD 0) + 1
  let provider := pyOr s.provider cfg.provider
  let reasoning_model := pyOr s.reasoning_model cfg.reasoning_model
  if research_loop_count ≥ cfg.max_research_loops then
    .ok ({ is_sufficient := some true, follow_up_queries := [] }, false)
  else
    (get_llm reasoning_model provider env).map fun _ =>
      let r := reflLLM s
      ({ is_sufficient := some r.is_sufficient, knowledge_gap := some r.knowledge_gap
         follow_up_queries := r.follow_up_queries }, true)

/-- `graph.py::evaluate_research`.  `state["is_sufficient"]` is a plain
subscript: an absent key is a `KeyError` (a structural error);
`follow_up_queries` is an append channel defaulting to `[]`, so its read
cannot fail. -/
def evaluate_research (s : RunState) : Except String PartialUpdate :=
  match s.is_sufficient with
  | none => .error "KeyError: is_sufficient"
  | some b =>
    if b then .ok { is_sufficient := some true }
    else .ok { is_sufficient := some false, query_list := some s.follow_up_queries }

/-- `graph.py::finalize_answer`: one more completion call (the oracle
`answerLLM`) appended to the conversation as an `AIMessage`. -/
def finalize_answer (cfg : Configuration) (env : Env)
    (answerLLM : RunState → String) (s : RunState) : Except String PartialUpdate :=
  let provider := pyOr s.provider cfg.provider
  let reasoning_model := pyOr s.reasoning_model cfg.reasoning_model
  (get_llm reasoning_model provider env).map fun _ =>
    { messages := [{ role := "ai", content := answerLLM s }] }

/-- `json.dumps` of a string (escaping abstracted). -/
def jsonStr (s : String) : String := "\"" ++ s ++ "\""

/-- `json.dumps` of a flat dict (the `indent=2` layout is abstracted into
a one-line rendering; the claims depend only on which value is
serialized). -/
def jsonDumpsPairs (ps : List (String × String)) : String :=
  "\x7b" ++ String.intercalate ", " (ps.map fun p => jsonStr p.1 ++ ": " ++ jsonStr p.2) ++ "\x7d"

/-- `json.dumps` on the modelled Python values. -/
def PyVal.dumps : PyVal → String
  | .pstr s => jsonStr s
  | .pdict ps => jsonDumpsPairs ps
  | .plist xs => "[" ++ String.intercalate ", " (xs.map jsonStr) ++ "]"
  | .pother s => jsonStr s

/-- The success-payload serialization of `execute_mcp_tool`
(lines 464-471 of `graph.py`): `json.dumps` for dict/list, the string
itself for `str`, `str(data)` otherwise. -/
def mcpOutputString : PyVal → String
  | .pdict ps => PyVal.dumps (.pdict ps)
  | .plist xs => PyVal.dumps (.plist xs)
  | .pstr s => s
  | .pother s => s

/-- `urllib.parse.urlencode` (percent-encoding of reserved characters is
abstracted; the claims never inspect the URL text). -/
def urlencode (ps : List (String × String)) : String :=
  String.intercalate "&" (ps.map fun p => p.1 ++ "=" ++ p.2)

/-- `graph.py::create_smithery_mcp_url`. -/
def create_smithery_mcp_url (server_qualified_name : String)
    (config_params : List (String × String)) (api_key : Option String) : String :=
  let base_url := "https://server.smithery.ai/" ++ server_qualified_name ++ "/mcp"
  let query_params :=
    (match api_key with
     | some k => if k = "" then [] else [("api_key", k)]
     | none => []) ++ config_params
  base_url ++ "?" ++ urlencode query_params

/-- One attempted external MCP call (`requests.post` target and payload). -/
structure McpCall where
  url : String
  tool : String
  params : List (String × String)
deriving DecidableEq, Repr

/-- The outcome of the single `requests.post` in `execute_mcp_tool`:
success with a JSON body, an `HTTPError` from `raise_for_status` (the
response body abstracted as its text), a `RequestException`, or any other
exception. -/
inductive PostResult where
  | ok (data : PyVal)
  | httpError (msg : String) (response_body : String)
  | requestError (msg : String)
  | otherError (msg : String)
deriving DecidableEq, Repr

/-- The `{**state, "mcp_tool_response": ...}` spread of `execute_mcp_tool`:
the node's returned dict carries every key of the incoming state (an
optional key that is absent stays absent). -/
def fullStateUpdate (s : RunState) : PartialUpdate :=
  { messages := s.messages
    search_query := s.search_query
    web_research_result := s.web_research_result
    sources_gathered := s.sources_gathered
    images := s.images
    follow_up_queries := s.follow_up_queries
    available_mcp_servers := some s.available_mcp_servers
    active_mcp_configurations := some s.active_mcp_configurations
    current_mcp_tool_request := s.current_mcp_tool_request
    target_mcp_server_qualified_name := s.target_mcp_server_qualified_name
    mcp_tool_response := s.mcp_tool_response
    initial_search_query_count := s.initial_search_query_count
    max_research_loops := some s.max_research_loops
    research_loop_count := s.research_loop_count
    reasoning_model := s.reasoning_model
    provider := s.provider
    query_list := some s.query_list
    is_sufficient := s.is_sufficient
    knowledge_gap := s.knowledge_gap
    next_node := s.next_node }

/-- `graph.py::execute_mcp_tool`.  The function also returns the list of
attempted external calls, so "performs exactly one external call" and
"without attempting the call" are statements about the model.  Checks in
source order: `SMITHERY_API_KEY` truthiness, then
`if not tool_request or not server_qname` (Python truthiness: the
pydantic request object is truthy iff present; the name must be present
and non-empty), then the explicit `server_config is None` check (an empty
config dict passes).  Every failure of the call itself is converted into
a `status="error"` response; exactly one entry is appended to the
node-local `web_research_result` list, which the node returns together
with the whole spread state. -/
def execute_mcp_tool (env : Env) (post : McpCall → PostResult) (s : RunState) :
    PartialUpdate × List McpCall :=
  if ¬ truthyStr env.smithery_api_key then
    ({ fullStateUpdate s with
        mcp_tool_response :=
          some { status := "error"
                 data := .pdict [("error", "SMITHERY_API_KEY not configured.")] } }, [])
  else
    match s.current_mcp_tool_request, s.target_mcp_server_qualified_name with
    | some req, some qname =>
      if qname = "" then
        ({ fullStateUpdate s with
            mcp_tool_response :=
              some { status := "error"
                     data := .pdict [("error", "Missing tool request or target server in state.")] } }, [])
      else
        match s.active_mcp_configurations.lookup qname with
        | none =>
          ({ fullStateUpdate s with
              mcp_tool_response :=
                some { status := "error"
                       data := .pdict [("error", "Active configuration for " ++ qname ++ " not found.")] } }, [])
        | some server_config =>
          let mcp_target_url := create_smithery_mcp_url qname server_config none
          let call : McpCall := { url := mcp_target_url, tool := req.tool_name, params := req.payload }
          let mcp_response : McpToolResponse :=
            match post call with
            | .ok data => { status := "success", data := data }
            | .httpError msg body =>
              { status := "error", data := .pdict [("error", msg), ("response_body", body)] }
            | .requestError msg =>
              { status := "error", data := .pdict [("error", "Request failed: " ++ msg)] }
            | .otherError msg =>
              { status := "error", data := .pdict [("error", "An unexpected error occurred: " ++ msg)] }
          let current_results := s.web_research_result
          let appended :=
            if mcp_response.status = "success" then
              current_results ++ [mcpOutputString mcp_response.data]
            else
              current_results ++ ["MCP Tool Execution Error:\n" ++ PyVal.dumps mcp_response.data]
          ({ fullStateUpdate s with
              mcp_tool_response := some mcp_response
              web_research_result := appended }, [call])
    | _, _ =>
      ({ fullStateUpdate s with
          mcp_tool_response :=
            some { status := "error"
                   data := .pdict [("error", "Missing tool request or target server in state.")] } }, [])

/-- The external collaborators of one run bundled with the
configuration: each oracle models one of the capabilities of §6 of the
spec (text completion per node, text search, image search, tool HTTP
call), keyed by the node input that reaches it. -/
structure World where
  env : Env
  cfg : Configuration
  queryGen : RunState → List String
  textSearch : String → Except String (List RawResult)
  imageSearch : String → Except String (List ImageResult)
  webLLM : String → Except String String
  reflLLM : RunState → ReflectionResult
  answerLLM : RunState → String
  mcpPost : McpCall → PostResult

/-- The named nodes of the graph wired by `graph.py::create_agent`,
plus the terminal. -/
inductive Phase where
  | routeToTool
  | generateQuery
  | executeMcpTool
  | reflectionNode
  | evaluateResearch
  | finalizeAnswer
  | terminalEnd
deriving DecidableEq, Repr

/-- One fan-out branch: `web_research` on the `Send` payload, with the
oracles selected by the branch's query. -/
def runBranch (w : World) (st : WebSearchState) : Except String PartialUpdate :=
  web_research w.cfg w.env (w.textSearch st.search_query) (w.imageSearch st.search_query)
    (w.webLLM st.search_query) st

/-- All fan-out branches, keeping each branch's index; a branch raising a
structural error (an uncaught exception such as `get_llm`'s `ValueError`)
fails the whole superstep. -/
def runBranches (w : World) : List Send → Except String (List (Nat × PartialUpdate))
  | [] => .ok []
  | sd :: rest =>
    (runBranch w sd.arg).bind fun u =>
      (runBranches w rest).map fun us => (sd.arg.id, u) :: us

/-- Order on indexed branch updates by branch index. -/
def keyLE (a b : Nat × PartialUpdate) : Prop := a.1 ≤ b.1

instance : DecidableRel keyLE := fun a b => Nat.decLe a.1 b.1

instance : IsTotal (Nat × PartialUpdate) keyLE := ⟨fun a b => Nat.le_total a.1 b.1⟩

instance : IsTrans (Nat × PartialUpdate) keyLE := ⟨fun _ _ _ h₁ h₂ => Nat.le_trans h₁ h₂⟩

/-- Modelled from the spec (§4.3): the join is a barrier over all
branches and merges their partial updates into the shared state in
branch-index order, regardless of the (simulated) completion order in
which they are listed. -/
def joinIndexed (s : RunState) (us : List (Nat × PartialUpdate)) : RunState :=
  (List.insertionSort keyLE us).foldl (fun acc p => applyUpdate acc p.2) s

/-- Modelled from the spec (§2, §4.2): the executor drives one node,
applies its partial update by the reduction policy and resolves the next
node from the topology wired by `graph.py::create_agent`: `START →
route_to_tool`, the `next_node` conditional edge, the
`continue_to_web_research` fan-out joining into `reflection` (an empty
`query_list` is a no-op join and the run proceeds directly to
`reflection`), `execute_mcp_tool → reflection`, `reflection →
evaluate_research`, the `is_sufficient` conditional edge, and
`finalize_answer → END`.  An uncaught exception in a node aborts the run
(`Except.error`). -/
def step (w : World) : Phase → RunState → Except String (Phase × RunState)
  | .routeToTool, s =>
    let s' := applyUpdate s (route_to_tool s)
    match s'.next_node with
    | some "execute_mcp_tool" => .ok (.executeMcpTool, s')
    | some "generate_query" => .ok (.generateQuery, s')
    | _ => .error "structural error: route_to_tool returned an undeclared node name"
  | .generateQuery, s =>
    (generate_query w.cfg w.env w.queryGen s).bind fun u =>
      let s' := applyUpdate s u
      let sends := continue_to_web_research { query_list := s'.query_list }
      (runBranches w sends).map fun us => (.reflectionNode, joinIndexed s' us)
  | .executeMcpTool, s =>
    let r := execute_mcp_tool w.env w.mcpPost s
    .ok (.reflectionNode, applyUpdate s r.1)
  | .reflectionNode, s =>
    (reflection w.cfg w.env w.reflLLM s).map fun r => (.evaluateResearch, applyUpdate s r.1)
  | .evaluateResearch, s =>
    (evaluate_research s).map fun u =>
      let s' := applyUpdate s u
      if s'.is_sufficient.getD false then (.finalizeAnswer, s') else (.generateQuery, s')
  | .finalizeAnswer, s =>
    (finalize_answer w.cfg w.env w.answerLLM s).map fun u => (.terminalEnd, applyUpdate s u)
  | .terminalEnd, s => .ok (.terminalEnd, s)

/-- Iterate the executor for at most `n` steps (fuel); the terminal phase
is absorbing. -/
def runSteps (w : World) : Nat → Phase → RunState → Except String (Phase × RunState)
  | 0, p, s => .ok (p, s)
  | n + 1, p, s => (step w p s).bind fun r => runSteps w n r.1 r.2

/-! ### Concrete fixtures for scenario theorems and witnesses -/

/-- An initial state as created from the initial partial record
(conversation + config): every channel at its default. -/
def state0 : RunState :=
  { messages := [], available_mcp_servers := [], active_mcp_configurations := []
    current_mcp_tool_request := none, target_mcp_server_qualified_name := none
    mcp_tool_response := none, search_query := [], web_research_result := []
    sources_gathered := [], images := [], initial_search_query_count := none
    max_research_loops := 3, research_loop_count := none, reasoning_model := none
    provider := none, query_list := [], is_sufficient := none, knowledge_gap := none
    follow_up_queries := [], next_node := none }

/-- A reflection capability that always answers `is_sufficient = False`. -/
def insufficientReflection : RunState → ReflectionResult :=
  fun _ => { is_sufficient := false, knowledge_gap := "gap", follow_up_queries := ["follow-up"] }

/-- Ollama configuration (no credential needed) with the given loop bound. -/
def cfgOllama (maxLoops : Nat) : Configuration :=
  { provider := "ollama", reasoning_model := "llama3.1:8b"
    number_of_initial_queries := 3, max_research_loops := maxLoops }

/-- A world with `max_research_loops = 2` whose reflection capability never
finds the results sufficient: the run of claim C1. -/
def wLoop : World :=
  { env := { gemini_api_key := none, smithery_api_key := none, ollama_base_url := none }
    cfg := cfgOllama 2
    queryGen := fun _ => ["q1"]
    textSearch := fun _ => .ok []
    imageSearch := fun _ => .ok []
    webLLM := fun _ => .ok "summary"
    reflLLM := insufficientReflection
    answerLLM := fun _ => "final answer"
    mcpPost := fun _ => .ok (.pstr "ok") }

/-- The claim C7 scenario: `max_research_loops = 1`, reflection capability
mocked to always return `is_sufficient = False`. -/
def w7 : World := { wLoop with cfg := cfgOllama 1 }

/-- The claim C8 scenario world: three queries, the search capability of
branch "b" raises, the others return one result each. -/
def w8 : World :=
  { wLoop with
    cfg := cfgOllama 3
    queryGen := fun _ => ["a", "b", "c"]
    textSearch := fun q =>
      if q = "b" then .error "search raised"
      else .ok [{ title := "Title", href := "http://u", body := "snip" }]
    webLLM := fun q => .ok ("summary-" ++ q) }

/-- A world configured for the gemini provider with no `GEMINI_API_KEY`
in the environment: the claim C2 configuration error. -/
def wGem : World :=
  { wLoop with
    cfg := { provider := "gemini", reasoning_model := "gemini-1.5-flash"
             number_of_initial_queries := 3, max_research_loops := 3 } }

/-- A state routed into the tool branch: request, target and an active
configuration for the target are all present. -/
def sTool : RunState :=
  { state0 with
    current_mcp_tool_request := some { tool_name := "toolA", payload := [("k", "v")] }
    target_mcp_server_qualified_name := some "srv"
    active_mcp_configurations := [("srv", [("cfg", "1")])] }

/-- Environment with only the Smithery key set. -/
def envSmith : Env :=
  { gemini_api_key := none, smithery_api_key := some "smith-key", ollama_base_url := none }

/-- A successful MCP post returning a JSON object. -/
def postOk : McpCall → PostResult := fun _ => .ok (.pdict [("result", "42")])

/-- The claim C3 failing input: a state that already holds one
`web_research_result` entry before the tool node runs. -/
def sC3 : RunState := { sTool with web_research_result := ["prior"] }

/-- The claim C5 counterexample state: both routing fields carry a value,
but the server name is the empty string. -/
def sEmptyTarget : RunState :=
  { state0 with
    target_mcp_server_qualified_name := some ""
    current_mcp_tool_request := some { tool_name := "t", payload := [] } }

/-! ### Claim theorems -/

/-- Claim C10: for every state, the routing node's returned partial update
contains only the `next_node` field, so the routing step leaves every
other RunState field (messages, query/result lists, loop counters, tool
request fields) unchanged. -/
theorem claim_C10_route_frame (s : RunState) :
    (∃ nn, route_to_tool s = { next_node := some nn }) ∧
    applyUpdate s (route_to_tool s) = { s with next_node := (route_to_tool s).next_node } := by
  constructor
  · unfold route_to_tool
    split
    · exact ⟨"execute_mcp_tool", rfl⟩
    · exact ⟨"generate_query", rfl⟩
  · unfold route_to_tool
    split <;> simp [applyUpdate, ow]

/-- Claim C5, counterexample: a state whose tool-request field and
server-name field are both present (the name being the empty string) is
routed to `generate_query`, refuting "routes to the tool-execution node
if and only if both current_mcp_tool_request and
target_mcp_server_qualified_name are present". -/
theorem claim_C5_counterexample :
    sEmptyTarget.current_mcp_tool_request.isSome = true ∧
    sEmptyTarget.target_mcp_server_qualified_name.isSome = true ∧
    route_to_tool sEmptyTarget = { next_node := some "generate_query" } := by decide

/-- Claim C5, amended: the routing step is a pure, deterministic function
of the two tool fields with exactly two outcomes; it routes to the
tool-execution node if and only if the tool request is present and the
target server name is present and non-empty (Python truthiness), and to
`generate_query` otherwise; when both are so set the pass continues at
`execute_mcp_tool`, never `generate_query`. -/
theorem claim_C5_amended :
    (∀ s : RunState,
      (route_to_tool s).next_node = some "execute_mcp_tool" ↔
        (truthyStr s.target_mcp_server_qualified_name = true ∧
          s.current_mcp_tool_request.isSome = true)) ∧
    (∀ s : RunState,
      (route_to_tool s).next_node = some "execute_mcp_tool" ∨
        (route_to_tool s).next_node = some "generate_query") ∧
    (∀ s t : RunState,
      s.target_mcp_server_qualified_name = t.target_mcp_server_qualified_name →
      s.current_mcp_tool_request = t.current_mcp_tool_request →
      route_to_tool s = route_to_tool t) ∧
    (∀ (w : World) (s : RunState),
      truthyStr s.target_mcp_server_qualified_name = true →
      s.current_mcp_tool_request.isSome = true →
      step w .routeToTool s = .ok (.executeMcpTool, applyUpdate s (route_to_tool s))) := by
  refine ⟨?_, ?_, ?_, ?_⟩
  · intro s
    unfold route_to_tool
    split
    · simp_all
    · simp_all
  · intro s
    unfold route_to_tool
    split
    · left; rfl
    · right; rfl
  · intro s t h₁ h₂
    unfold route_to_tool
    rw [h₁, h₂]
  · intro w s h₁ h₂
    have hr : route_to_tool s = { next_node := some "execute_mcp_tool" } := by
      unfold route_to_tool
      rw [if_pos ⟨h₁, h₂⟩]
    show step w .routeToTool s = _
    rw [step, hr]
    simp [applyUpdate, ow]

/-- Witness for claim C5's amended theorem at a concrete state with both
fields set. -/
theorem claim_C5_witness :
    step wLoop .routeToTool sTool = .ok (.executeMcpTool, applyUpdate sTool (route_to_tool sTool)) :=
  claim_C5_amended.2.2.2 wLoop sTool (by decide) (by decide)

/-- The error response of `execute_mcp_tool` when the Smithery key is not
configured. -/
def smitheryResponse : McpToolResponse :=
  { status := "error", data := .pdict [("error", "SMITHERY_API_KEY not configured.")] }

/-- The error response when the tool request or the target server is
missing. -/
def missingResponse : McpToolResponse :=
  { status := "error", data := .pdict [("error", "Missing tool request or target server in state.")] }

/-- The error response when no active configuration exists for the target
server. -/
def configResponse (t : String) : McpToolResponse :=
  { status := "error", data := .pdict [("error", "Active configuration for " ++ t ++ " not found.")] }

/-- Two strings with different first characters differ. -/
theorem ne_of_head_ne {a b : String} (h : a.data.head? ≠ b.data.head?) : a ≠ b :=
  fun hc => h (by rw [hc])

/-- The configuration-missing message starts with 'A' for every server
name. -/
theorem configMsg_head (t : String) :
    ("Active configuration for " ++ t ++ " not found.").data.head? = some 'A' := by
  have h1 : ("Active configuration for " : String).data.head? = some 'A' := by decide
  rw [String.data_append, String.data_append, List.head?_append, List.head?_append, h1]
  rfl

/-- The three guard errors of `execute_mcp_tool` are pairwise distinct,
for every server name. -/
theorem guard_responses_distinct (t : String) :
    missingResponse ≠ configResponse t ∧ smitheryResponse ≠ missingResponse ∧
      smitheryResponse ≠ configResponse t := by
  have hmc : ("Missing tool request or target server in state." : String) ≠
      "Active configuration for " ++ t ++ " not found." := by
    apply ne_of_head_ne
    rw [configMsg_head]
    decide
  have hsc : ("SMITHERY_API_KEY not configured." : String) ≠
      "Active configuration for " ++ t ++ " not found." := by
    apply ne_of_head_ne
    rw [configMsg_head]
    decide
  refine ⟨?_, by decide, ?_⟩
  · intro h
    simp only [missingResponse, configResponse, McpToolResponse.mk.injEq, PyVal.pdict.injEq,
      List.cons.injEq, Prod.mk.injEq, and_true, true_and] at h
    exact hmc h
  · intro h
    simp only [smitheryResponse, configResponse, McpToolResponse.mk.injEq, PyVal.pdict.injEq,
      List.cons.injEq, Prod.mk.injEq, and_true, true_and] at h
    exact hsc h

/-- Claim C6: with the proxy credential configured, a missing tool
request, a missing/empty target server name, or a missing
`active_mcp_configurations` entry each yield a distinct
`status = "error"` tool response without any external call being
attempted; an entry that is present as an empty configuration object
counts as existing, and the call is attempted. -/
theorem claim_C6_guard_errors :
    (∀ (env : Env) (post : McpCall → PostResult) (s : RunState),
      truthyStr env.smithery_api_key = true →
      (s.current_mcp_tool_request = none ∨ truthyStr s.target_mcp_server_qualified_name = false) →
      execute_mcp_tool env post s =
        ({ fullStateUpdate s with mcp_tool_response := some missingResponse }, [])) ∧
    (∀ (env : Env) (post : McpCall → PostResult) (s : RunState) (req : McpToolRequest) (t : String),
      truthyStr env.smithery_api_key = true →
      s.current_mcp_tool_request = some req →
      s.target_mcp_server_qualified_name = some t →
      t ≠ "" →
      s.active_mcp_configurations.lookup t = none →
      execute_mcp_tool env post s =
        ({ fullStateUpdate s with mcp_tool_response := some (configResponse t) }, [])) ∧
    (∀ t, missingResponse ≠ configResponse t ∧ smitheryResponse ≠ missingResponse ∧
      smitheryResponse ≠ configResponse t) ∧
    (∀ (env : Env) (post : McpCall → PostResult) (s : RunState) (req : McpToolRequest) (t : String),
      truthyStr env.smithery_api_key = true →
      s.current_mcp_tool_request = some req →
      s.target_mcp_server_qualified_name = some t →
      t ≠ "" →
      s.active_mcp_configurations.lookup t = some [] →
      (execute_mcp_tool env post s).2.length = 1) := by
  refine ⟨?_, ?_, guard_responses_distinct, ?_⟩
  · intro env post s hk hmiss
    unfold execute_mcp_tool
    rw [if_neg (by simp [hk])]
    rcases hmiss with h | h
    · rw [h]
      rcases ht : s.target_mcp_server_qualified_name with _ | t <;> rfl
    · rcases hr : s.current_mcp_tool_request with _ | req
      · rcases ht : s.target_mcp_server_qualified_name with _ | t <;> rfl
      · rcases ht : s.target_mcp_server_qualified_name with _ | t
        · rfl
        · rw [ht] at h
          have hte : t = "" := by
            by_contra hne
            simp [truthyStr, hne] at h
          subst hte
          rfl
  · intro env post s req t hk hreq ht htne hlook
    unfold execute_mcp_tool
    rw [if_neg (by simp [hk]), hreq, ht]
    simp [htne, hlook, configResponse]
  · intro env post s req t hk hreq ht htne hlook
    unfold execute_mcp_tool
    rw [if_neg (by simp [hk]), hreq, ht]
    simp [htne, hlook]

/-- A state with the tool request absent. -/
def sMissingReq : RunState := { sTool with current_mcp_tool_request := none }

/-- A state whose target server has no active configuration entry. -/
def sNoConfig : RunState := { sTool with active_mcp_configurations := [] }

/-- A state whose target server's configuration entry is present but
empty. -/
def sEmptyConfig : RunState := { sTool with active_mcp_configurations := [("srv", [])] }

/-- Witness for claim C6 at concrete states: each guard fires without a
call, the errors are distinct, and the empty configuration lets the call
proceed. -/
theorem claim_C6_witness :
    execute_mcp_tool envSmith postOk sMissingReq =
      ({ fullStateUpdate sMissingReq with mcp_tool_response := some missingResponse }, []) ∧
    execute_mcp_tool envSmith postOk sNoConfig =
      ({ fullStateUpdate sNoConfig with mcp_tool_response := some (configResponse "srv") }, []) ∧
    (missingResponse ≠ configResponse "srv" ∧ smitheryResponse ≠ missingResponse ∧
      smitheryResponse ≠ configResponse "srv") ∧
    (execute_mcp_tool envSmith postOk sEmptyConfig).2.length = 1 :=
  ⟨claim_C6_guard_errors.1 envSmith postOk sMissingReq (by decide) (Or.inl rfl),
   claim_C6_guard_errors.2.1 envSmith postOk sNoConfig
     { tool_name := "toolA", payload := [("k", "v")] } "srv" (by decide) rfl rfl
     (by decide) (by decide),
   claim_C6_guard_errors.2.2.1 "srv",
   claim_C6_guard_errors.2.2.2 envSmith postOk sEmptyConfig
     { tool_name := "toolA", payload := [("k", "v")] } "srv" (by decide) rfl rfl
     (by decide) (by decide)⟩

/-- Claim C3 (failing input): on a state already holding one
`web_research_result` entry, `execute_mcp_tool` performs exactly one
external call and succeeds, yet merging its returned update (the whole
spread state plus one appended entry) through the `operator.add` channel
re-appends the prior entry: the merged state gains two entries, not one. -/
theorem claim_C3_merge_duplicates :
    (execute_mcp_tool envSmith postOk sC3).2.length = 1 ∧
    (execute_mcp_tool envSmith postOk sC3).1.mcp_tool_response =
      some { status := "success", data := .pdict [("result", "42")] } ∧
    sC3.web_research_result = ["prior"] ∧
    (applyUpdate sC3 (execute_mcp_tool envSmith postOk sC3).1).web_research_result =
      ["prior", "prior", "\x7b\"result\": \"42\"\x7d"] := by decide

/-- Claim C2, counterexample: with the gemini provider configured and no
`GEMINI_API_KEY` in the environment — a configuration error, not a
structural one — the run raises out of `generate_query` (`get_llm`'s
`ValueError` is uncaught), so the caller receives a thrown exception
instead of a terminal RunState and the run never proceeds into
reflection. -/
theorem claim_C2_counterexample :
    runSteps wGem 2 .routeToTool state0 = .error "GEMINI_API_KEY is not set" ∧
    generate_query wGem.cfg wGem.env wGem.queryGen (applyUpdate state0 (route_to_tool state0)) =
      .error "GEMINI_API_KEY is not set" := by decide

/-- Claim C2, amended: a missing `SMITHERY_API_KEY` in the tool-execution
node is surfaced as a structured `status = "error"` value on
`mcp_tool_response` without an external call or an exception, the run
proceeds into reflection and still terminates; but a missing LLM
credential (`GEMINI_API_KEY` with the gemini provider) raises `ValueError`
inside the node and propagates to the caller, halting the run. -/
theorem claim_C2_amended :
    (execute_mcp_tool wLoop.env wLoop.mcpPost sTool).2 = [] ∧
    (execute_mcp_tool wLoop.env wLoop.mcpPost sTool).1.mcp_tool_response = some smitheryResponse ∧
    step wLoop .executeMcpTool sTool =
      .ok (.reflectionNode, applyUpdate sTool (execute_mcp_tool wLoop.env wLoop.mcpPost sTool).1) ∧
    (runSteps w7 5 .routeToTool sTool).toOption.map (fun r => r.1) = some .terminalEnd ∧
    (runSteps w7 5 .routeToTool sTool).toOption.map (fun r => r.2.mcp_tool_response) =
      some (some smitheryResponse) ∧
    runSteps wGem 2 .routeToTool state0 = .error "GEMINI_API_KEY is not set" := by decide

/-- Claim C7: the reflection node drives its loop-bound check with the
locally incremented `research_loop_count`; at the bound it returns
`is_sufficient = true` and `follow_up_queries = []` without invoking the
text-completion capability (the returned flag is `false` and the result
does not depend on the oracle), below the bound it invokes the capability
and returns its `is_sufficient`, `knowledge_gap` and `follow_up_queries`;
and in the `max_research_loops = 1` scenario with an always-insufficient
capability the run performs exactly one loop pass — reflection at fuel 2,
evaluation at fuel 3 seeing the forced `is_sufficient = true` — and then
finalizes. -/
theorem claim_C7_reflection :
    (∀ (cfg : Configuration) (env : Env) (o : RunState → ReflectionResult) (s : RunState),
      cfg.max_research_loops ≤ s.research_loop_count.getD 0 + 1 →
      reflection cfg env o s = .ok ({ is_sufficient := some true, follow_up_queries := [] }, false)) ∧
    (∀ (cfg : Configuration) (env : Env) (o : RunState → ReflectionResult) (s : RunState) (llm : LLM),
      s.research_loop_count.getD 0 + 1 < cfg.max_research_loops →
      get_llm (pyOr s.reasoning_model cfg.reasoning_model) (pyOr s.provider cfg.provider) env =
        .ok llm →
      reflection cfg env o s =
        .ok ({ is_sufficient := some (o s).is_sufficient
               knowledge_gap := some (o s).knowledge_gap
               follow_up_queries := (o s).follow_up_queries }, true)) ∧
    ((runSteps w7 2 .routeToTool state0).toOption.map (fun r => r.1) = some .reflectionNode ∧
      (runSteps w7 3 .routeToTool state0).toOption.map (fun r => r.1) = some .evaluateResearch ∧
      (runSteps w7 3 .routeToTool state0).toOption.map (fun r => r.2.is_sufficient) =
        some (some true) ∧
      (runSteps w7 4 .routeToTool state0).toOption.map (fun r => r.1) = some .finalizeAnswer ∧
      (runSteps w7 5 .routeToTool state0).toOption.map (fun r => r.1) = some .terminalEnd) := by
  refine ⟨?_, ?_, by decide⟩
  · intro cfg env o s h
    unfold reflection
    rw [if_pos h]
  · intro cfg env o s llm h hllm
    unfold reflection
    rw [if_neg (by omega), hllm]
    rfl

/-- Witness for claim C7 at concrete inputs: the short-circuit at the
bound and the capability pass below it. -/
theorem claim_C7_witness :
    reflection (cfgOllama 1) wLoop.env insufficientReflection state0 =
      .ok ({ is_sufficient := some true, follow_up_queries := [] }, false) ∧
    reflection (cfgOllama 3) wLoop.env insufficientReflection state0 =
      .ok ({ is_sufficient := some (insufficientReflection state0).is_sufficient
             knowledge_gap := some (insufficientReflection state0).knowledge_gap
             follow_up_queries := (insufficientReflection state0).follow_up_queries }, true) :=
  ⟨claim_C7_reflection.1 (cfgOllama 1) wLoop.env insufficientReflection state0 (by decide),
   claim_C7_reflection.2.1 (cfgOllama 3) wLoop.env insufficientReflection state0
     { provider := "ollama", model_name := "llama3.1:8b", base_url := "http://localhost:11434" }
     (by decide) (by decide)⟩

/-- Claim C8: a fan-out branch whose external search calls raise still
produces a well-formed partial update whose single `web_research_result`
entry is the diagnostic message; and in the three-query scenario with
branch "b"'s search raising, the join completes with three merged
entries — the diagnostic in branch position 1 — and the run reaches the
reflection node. -/
theorem claim_C8_branch_failure :
    (∀ (q e e' : String) (llm : Except String String),
      perform_web_search_with_llm q true (.error e) (.error e') llm =
        { sources_gathered := [], search_query := q
          web_research_result := "No search results found for: " ++ q, images := [] }) ∧
    (∀ (q e e' : String) (llm : Except String String) (i : Nat),
      web_research (cfgOllama 3) wLoop.env (.error e) (.error e') llm
          { search_query := q, id := i } =
        .ok { sources_gathered := [], search_query := [q]
              web_research_result := ["No search results found for: " ++ q], images := [] }) ∧
    ((step w8 .generateQuery state0).toOption.map (fun r => r.1) = some .reflectionNode ∧
      (step w8 .generateQuery state0).toOption.map (fun r => r.2.web_research_result) =
        some ["summary-a", "No search results found for: b", "summary-c"]) := by
  refine ⟨fun q e e' llm => rfl, ?_, by decide⟩
  intro q e e' llm i
  simp only [web_research]
  rw [show get_llm (cfgOllama 3).reasoning_model (cfgOllama 3).provider wLoop.env =
    .ok { provider := "ollama", model_name := "llama3.1:8b"
          base_url := "http://localhost:11434" } from by decide]
  rfl

/-- Claim C9: an empty `query_list` yields zero `Send`s from the fan-out
dispatch function, and the executor then proceeds directly from the
query-generation superstep to the reflection node as a no-op join: no
append-class field gains an entry. -/
theorem claim_C9_empty_fanout :
    continue_to_web_research { query_list := [] } = [] ∧
    (∀ (w : World) (s : RunState) (llm : LLM),
      get_llm (pyOr s.reasoning_model w.cfg.reasoning_model) (pyOr s.provider w.cfg.provider)
        w.env = .ok llm →
      w.queryGen s = [] →
      step w .generateQuery s = .ok (.reflectionNode, applyUpdate s { query_list := some [] }) ∧
      (applyUpdate s { query_list := some ([] : List String) }).web_research_result =
        s.web_research_result ∧
      (applyUpdate s { query_list := some ([] : List String) }).search_query = s.search_query ∧
      (applyUpdate s { query_list := some ([] : List String) }).sources_gathered =
        s.sources_gathered ∧
      (applyUpdate s { query_list := some ([] : List String) }).images = s.images) := by
  refine ⟨rfl, ?_⟩
  intro w s llm hllm hq
  have hgen : generate_query w.cfg w.env w.queryGen s = .ok { query_list := some [] } := by
    simp only [generate_query]
    rw [hllm, hq]
    rfl
  refine ⟨?_, by simp [applyUpdate, ow], by simp [applyUpdate, ow], by simp [applyUpdate, ow],
    by simp [applyUpdate, ow]⟩
  show (generate_query w.cfg w.env w.queryGen s).bind _ = _
  rw [hgen]
  rfl

/-- A world whose query generator returns the empty list. -/
def wEmptyQ : World := { wLoop with queryGen := fun _ => [] }

/-- Witness for claim C9 at a concrete world with an empty generated
query list. -/
theorem claim_C9_witness :
    step wEmptyQ .generateQuery state0 =
      .ok (.reflectionNode, applyUpdate state0 { query_list := some [] }) ∧
    (applyUpdate state0 { query_list := some ([] : List String) }).web_research_result =
      state0.web_research_result ∧
    (applyUpdate state0 { query_list := some ([] : List String) }).search_query =
      state0.search_query ∧
    (applyUpdate state0 { query_list := some ([] : List String) }).sources_gathered =
      state0.sources_gathered ∧
    (applyUpdate state0 { query_list := some ([] : List String) }).images = state0.images :=
  claim_C9_empty_fanout.2 wEmptyQ state0
    { provider := "ollama", model_name := "llama3.1:8b", base_url := "http://localhost:11434" }
    (by decide) rfl

/-- The invariant of the `wLoop` run: the shared loop counter and the tool
fields stay at their initial (absent) values, the run never reaches the
finalize or terminal phases, and at the evaluation node the merged
`is_sufficient` is the oracle's `false`. -/
def LoopInv (p : Phase) (s : RunState) : Prop :=
  s.research_loop_count = none ∧
  s.current_mcp_tool_request = none ∧
  s.target_mcp_server_qualified_name = none ∧
  s.provider = none ∧
  s.reasoning_model = none ∧
  p ≠ .finalizeAnswer ∧ p ≠ .terminalEnd ∧ p ≠ .executeMcpTool ∧
  (p = .evaluateResearch → s.is_sufficient = some false)

/-- The branch update every `wLoop` web-research branch produces (its
search oracles return no results, so the diagnostic entry is appended). -/
def diagUpdateQ1 : PartialUpdate :=
  { search_query := ["q1"], web_research_result := ["No search results found for: q1"] }

/-- The reflection update of the always-insufficient oracle below the
bound: note it carries no `research_loop_count`. -/
def reflFalseUpdate : PartialUpdate :=
  { is_sufficient := some false, knowledge_gap := some "gap", follow_up_queries := ["follow-up"] }

/-- One `wLoop` executor step preserves `LoopInv`. -/
theorem wLoop_step_inv (p : Phase) (s : RunState) (h : LoopInv p s) :
    ∃ p' s', step wLoop p s = .ok (p', s') ∧ LoopInv p' s' := by
  obtain ⟨h1, h2, h3, h4, h5, h6, h7, h8, h9⟩ := h
  cases p with
  | routeToTool =>
    have hr : route_to_tool s = { next_node := some "generate_query" } := by
      unfold route_to_tool
      rw [h3]
      rw [if_neg (by simp [truthyStr])]
    refine ⟨.generateQuery, applyUpdate s (route_to_tool s), ?_, ?_⟩
    · show step wLoop .routeToTool s = _
      simp only [step]
      rw [hr]
      rfl
    · rw [hr]
      exact ⟨h1, h2, h3, h4, h5, by decide, by decide, by decide,
        fun hc => absurd hc (by decide)⟩
  | generateQuery =>
    have hgen : generate_query wLoop.cfg wLoop.env wLoop.queryGen s =
        .ok { query_list := some ["q1"] } := by
      simp only [generate_query]
      rw [h4, h5]
      rfl
    refine ⟨.reflectionNode, applyUpdate (applyUpdate s { query_list := some ["q1"] }) diagUpdateQ1,
      ?_, ?_⟩
    · show (generate_query wLoop.cfg wLoop.env wLoop.queryGen s).bind _ = _
      rw [hgen]
      rfl
    · exact ⟨h1, h2, h3, h4, h5, by decide, by decide, by decide,
        fun hc => absurd hc (by decide)⟩
  | reflectionNode =>
    have hrefl : reflection wLoop.cfg wLoop.env wLoop.reflLLM s = .ok (reflFalseUpdate, true) := by
      simp only [reflection]
      rw [h1, h4, h5]
      rfl
    refine ⟨.evaluateResearch, applyUpdate s reflFalseUpdate, ?_, ?_⟩
    · show (reflection wLoop.cfg wLoop.env wLoop.reflLLM s).map _ = _
      rw [hrefl]
      rfl
    · exact ⟨h1, h2, h3, h4, h5, by decide, by decide, by decide, fun _ => rfl⟩
  | evaluateResearch =>
    have hs := h9 rfl
    have hev : evaluate_research s =
        .ok { is_sufficient := some false, query_list := some s.follow_up_queries } := by
      unfold evaluate_research
      rw [hs]
      rfl
    refine ⟨.generateQuery,
      applyUpdate s { is_sufficient := some false, query_list := some s.follow_up_queries },
      ?_, ?_⟩
    · show (evaluate_research s).map _ = _
      rw [hev]
      rfl
    · exact ⟨h1, h2, h3, h4, h5, by decide, by decide, by decide,
        fun hc => absurd hc (by decide)⟩
  | executeMcpTool => exact absurd rfl h8
  | finalizeAnswer => exact absurd rfl h6
  | terminalEnd => exact absurd rfl h7

/-- Any number of `wLoop` executor steps from an invariant state lands in
an invariant state. -/
theorem wLoop_inv_run : ∀ (n : Nat) (p : Phase) (s : RunState), LoopInv p s →
    ∃ p' s', runSteps wLoop n p s = .ok (p', s') ∧ LoopInv p' s' := by
  intro n
  induction n with
  | zero => exact fun p s h => ⟨p, s, rfl, h⟩
  | succ n ih =>
    intro p s h
    obtain ⟨p₁, s₁, hstep, hinv₁⟩ := wLoop_step_inv p s h
    obtain ⟨p', s', hrun, hinv'⟩ := ih p₁ s₁ hinv₁
    refine ⟨p', s', ?_, hinv'⟩
    show (step wLoop p s).bind _ = _
    rw [hstep]
    exact hrun

/-- Claim C1 (code bug): reflection's returned partial update never
carries `research_loop_count` — the increment lives only in the
node-local dict — so in the `wLoop` run (`max_research_loops = 2`,
reflection capability always insufficient) the shared counter stays
absent (0) after every number of steps and the run never reaches
`finalize_answer` or the terminal: the loop is unbounded, refuting both
the per-invocation increment of the shared counter and termination
within `max_research_loops` reflection invocations. -/
theorem claim_C1_loop_unbounded :
    (∀ (cfg : Configuration) (env : Env) (o : RunState → ReflectionResult) (s : RunState),
      (reflection cfg env o s).map (fun r => r.1.research_loop_count) =
        (reflection cfg env o s).map (fun _ => none)) ∧
    (∀ n : Nat, ∃ p s, runSteps wLoop n .routeToTool state0 = .ok (p, s) ∧
      p ≠ .finalizeAnswer ∧ p ≠ .terminalEnd ∧ s.research_loop_count = none) := by
  constructor
  · intro cfg env o s
    simp only [reflection]
    split
    · rfl
    · cases get_llm (pyOr s.reasoning_model cfg.reasoning_model) (pyOr s.provider cfg.provider)
        env <;> rfl
  · intro n
    obtain ⟨p, s, hrun, hinv⟩ := wLoop_inv_run n .routeToTool state0
      ⟨rfl, rfl, rfl, rfl, rfl, by decide, by decide, by decide, fun hc => absurd hc (by decide)⟩
    exact ⟨p, s, hrun, hinv.2.2.2.2.2.1, hinv.2.2.2.2.2.2.1, hinv.1⟩

/-- Strict order on indexed branch updates by branch index. -/
def keyLT (a b : Nat × PartialUpdate) : Prop := a.1 < b.1

instance : IsAntisymm (Nat × PartialUpdate) keyLT :=
  ⟨fun _ _ h₁ h₂ => absurd h₁ (Nat.lt_asymm h₂)⟩

/-- A `keyLE`-sorted list with pairwise-distinct indices is strictly
sorted by index. -/
theorem sorted_keyLT_of_sorted_keyLE {l : List (Nat × PartialUpdate)}
    (hs : List.Sorted keyLE l) (hnd : (l.map Prod.fst).Nodup) : List.Sorted keyLT l := by
  have hs' : List.Pairwise keyLE l := hs
  have hne : List.Pairwise (fun a b : Nat × PartialUpdate => a.1 ≠ b.1) l :=
    List.pairwise_map.mp hnd
  exact (hs'.and hne).imp fun h => Nat.lt_of_le_of_ne h.1 h.2

/-- Sorting by branch index is invariant under permutation of the input
when the indices are pairwise distinct: completion order does not matter. -/
theorem insertionSort_key_nodup_eq {l₁ l₂ : List (Nat × PartialUpdate)}
    (hp : l₁.Perm l₂) (hnd : (l₂.map Prod.fst).Nodup) :
    List.insertionSort keyLE l₁ = List.insertionSort keyLE l₂ := by
  have hperm : (List.insertionSort keyLE l₁).Perm (List.insertionSort keyLE l₂) :=
    ((List.perm_insertionSort keyLE l₁).trans hp).trans (List.perm_insertionSort keyLE l₂).symm
  have hnd₂ : ((List.insertionSort keyLE l₂).map Prod.fst).Nodup :=
    ((List.perm_insertionSort keyLE l₂).map Prod.fst).nodup_iff.mpr hnd
  have hnd₁ : ((List.insertionSort keyLE l₁).map Prod.fst).Nodup :=
    (hperm.map Prod.fst).nodup_iff.mpr hnd₂
  exact List.eq_of_perm_of_sorted hperm
    (sorted_keyLT_of_sorted_keyLE (List.sorted_insertionSort keyLE l₁) hnd₁)
    (sorted_keyLT_of_sorted_keyLE (List.sorted_insertionSort keyLE l₂) hnd₂)

/-- The join result is independent of the order in which the branch
updates are listed, given distinct branch indices. -/
theorem joinIndexed_perm (s : RunState) {us₁ us₂ : List (Nat × PartialUpdate)}
    (hp : us₁.Perm us₂) (hnd : (us₂.map Prod.fst).Nodup) :
    joinIndexed s us₁ = joinIndexed s us₂ := by
  unfold joinIndexed
  rw [insertionSort_key_nodup_eq hp hnd]

/-- The search/image/LLM outcome of one branch, keyed by its query. -/
def performOut (w : World) (q : String) : WebOut :=
  perform_web_search_with_llm q true (w.textSearch q) (w.imageSearch q) (w.webLLM q)

/-- The partial update a successful `web_research` branch returns for
query `q`. -/
def branchOutQ (w : World) (q : String) : PartialUpdate :=
  { sources_gathered := (performOut w q).sources_gathered
    search_query := [(performOut w q).search_query]
    web_research_result := [(performOut w q).web_research_result]
    images := (performOut w q).images }

/-- A fan-out branch whose LLM handle construction succeeds returns the
`branchOutQ` update of its query. -/
theorem runBranch_eq (w : World) (llm : LLM)
    (hllm : get_llm w.cfg.reasoning_model w.cfg.provider w.env = .ok llm) (st : WebSearchState) :
    runBranch w st = .ok (branchOutQ w st.search_query) := by
  unfold runBranch
  simp only [web_research]
  rw [hllm]
  rfl

/-- All branches succeed and deliver their `branchOutQ` updates keyed by
their `Send` indices. -/
theorem runBranches_eq (w : World) (llm : LLM)
    (hllm : get_llm w.cfg.reasoning_model w.cfg.provider w.env = .ok llm) :
    ∀ sends : List Send, runBranches w sends =
      .ok (sends.map fun sd => (sd.arg.id, branchOutQ w sd.arg.search_query)) := by
  intro sends
  induction sends with
  | nil => rfl
  | cons sd rest ih =>
    show (runBranch w sd.arg).bind _ = _
    rw [runBranch_eq w llm hllm, ih]
    rfl

/-- Every return path of `perform_web_search_with_llm` reports back the
input query. -/
theorem performOut_search_query (w : World) (q : String) : (performOut w q).search_query = q := by
  simp only [performOut, perform_web_search_with_llm]
  split <;> (try split) <;> (try split) <;> rfl

/-- The indexed updates of a fan-out over `qs`. -/
def branchUpdates (w : World) (qs : List String) : List (Nat × PartialUpdate) :=
  qs.enum.map fun p => (p.1, branchOutQ w p.2)

/-- The fan-out's `Send`s produce exactly the `branchUpdates`. -/
theorem sends_map_eq (w : World) (qs : List String) :
    (continue_to_web_research { query_list := qs }).map
      (fun sd => (sd.arg.id, branchOutQ w sd.arg.search_query)) = branchUpdates w qs := by
  unfold continue_to_web_research branchUpdates
  rw [List.map_map]
  rfl

/-- The branch indices of a fan-out are `0, 1, ..., N-1`. -/
theorem branchUpdates_keys (w : World) (qs : List String) :
    (branchUpdates w qs).map Prod.fst = List.range qs.length := by
  unfold branchUpdates
  rw [List.map_map]
  rw [show (Prod.fst ∘ fun p : Nat × String => (p.1, branchOutQ w p.2)) =
    (Prod.fst : Nat × String → Nat) from rfl]
  exact List.enum_map_fst qs

/-- Projecting a per-branch field over the indexed updates of a fan-out
gives the per-query values in query order. -/
theorem branchUpdates_map_field {β : Type} (w : World) (qs : List String)
    (f : PartialUpdate → β) :
    (branchUpdates w qs).map (fun p => f p.2) = qs.map (fun q => f (branchOutQ w q)) := by
  unfold branchUpdates
  rw [List.map_map]
  rw [show ((fun p : Nat × PartialUpdate => f p.2) ∘ fun p : Nat × String =>
      (p.1, branchOutQ w p.2)) = (fun q : String => f (branchOutQ w q)) ∘ Prod.snd from rfl]
  rw [← List.map_map, List.enum_map_snd]

/-- Enumerated branch updates are sorted by index from any start. -/
theorem pairwise_keyLE_enumFrom (w : World) :
    ∀ (n : Nat) (qs : List String),
      List.Pairwise keyLE ((List.enumFrom n qs).map fun p => (p.1, branchOutQ w p.2)) := by
  intro n qs
  induction qs generalizing n with
  | nil => exact List.Pairwise.nil
  | cons q qs ih =>
    rw [List.enumFrom_cons, List.map_cons]
    refine List.Pairwise.cons ?_ (ih (n + 1))
    intro y hy
    obtain ⟨⟨i, x⟩, hp, rfl⟩ := List.mem_map.mp hy
    have hle := (List.mem_enumFrom hp).1
    show n ≤ i
    omega

/-- The fan-out's updates arrive already in branch-index order. -/
theorem sorted_branchUpdates (w : World) (qs : List String) :
    List.Sorted keyLE (branchUpdates w qs) :=
  pairwise_keyLE_enumFrom w 0 qs

/-- On an index-sorted list the join is a plain left fold of the merge. -/
theorem joinIndexed_sorted (s : RunState) {us : List (Nat × PartialUpdate)}
    (hs : List.Sorted keyLE us) :
    joinIndexed s us = us.foldl (fun acc p => applyUpdate acc p.2) s := by
  unfold joinIndexed
  rw [hs.insertionSort_eq]

/-- Folding merges appends each update's append-class entries in order. -/
theorem foldl_applyUpdate_fields :
    ∀ (l : List (Nat × PartialUpdate)) (s : RunState),
      (l.foldl (fun acc p => applyUpdate acc p.2) s).search_query =
        s.search_query ++ (l.map fun p => p.2.search_query).flatten ∧
      (l.foldl (fun acc p => applyUpdate acc p.2) s).web_research_result =
        s.web_research_result ++ (l.map fun p => p.2.web_research_result).flatten ∧
      (l.foldl (fun acc p => applyUpdate acc p.2) s).sources_gathered =
        s.sources_gathered ++ (l.map fun p => p.2.sources_gathered).flatten ∧
      (l.foldl (fun acc p => applyUpdate acc p.2) s).images =
        s.images ++ (l.map fun p => p.2.images).flatten := by
  intro l
  induction l with
  | nil => intro s; simp
  | cons a l ih =>
    intro s
    refine ⟨?_, ?_, ?_, ?_⟩
    · rw [List.foldl_cons, (ih (applyUpdate s a.2)).1, List.map_cons, List.flatten_cons]
      show (s.search_query ++ a.2.search_query) ++ _ = _
      rw [List.append_assoc]
    · rw [List.foldl_cons, (ih (applyUpdate s a.2)).2.1, List.map_cons, List.flatten_cons]
      show (s.web_research_result ++ a.2.web_research_result) ++ _ = _
      rw [List.append_assoc]
    · rw [List.foldl_cons, (ih (applyUpdate s a.2)).2.2.1, List.map_cons, List.flatten_cons]
      show (s.sources_gathered ++ a.2.sources_gathered) ++ _ = _
      rw [List.append_assoc]
    · rw [List.foldl_cons, (ih (applyUpdate s a.2)).2.2.2, List.map_cons, List.flatten_cons]
      show (s.images ++ a.2.images) ++ _ = _
      rw [List.append_assoc]

/-- Joining singleton blocks flattens to the mapped list. -/
theorem join_map_singleton {α β : Type} (f : α → β) :
    ∀ l : List α, ((l.map fun a => [f a]).flatten) = l.map f := by
  intro l
  induction l with
  | nil => rfl
  | cons a l ih => simp only [List.map_cons, List.flatten_cons, ih, List.singleton_append]

/-- A world whose text search returns two results for every query. -/
def wSrc : World :=
  { wLoop with
    textSearch := fun _ => .ok [{ title := "T1", href := "http://u1", body := "b1" },
                                { title := "T2", href := "http://u2", body := "b2" }]
    webLLM := fun _ => .ok "done" }

/-- Claim C4, counterexample: a fan-out over one query whose branch
returns two (nonzero) search results makes `sources_gathered` gain two
entries, not exactly `N = 1`: the per-branch contribution to
`sources_gathered` (and `images`) is a whole block, not one entry. -/
theorem claim_C4_counterexample :
    (branchUpdates wSrc ["a"]).length = 1 ∧
    (joinIndexed state0 (branchUpdates wSrc ["a"])).web_research_result.length = 1 ∧
    state0.sources_gathered.length = 0 ∧
    (joinIndexed state0 (branchUpdates wSrc ["a"])).sources_gathered.length = 2 := by decide

/-- Claim C4, amended: after a fan-out over `N` queries, `search_query`
and `web_research_result` gain exactly `N` new entries, one per branch in
branch-index order; `sources_gathered` and `images` gain one block per
branch (the branch's whole result list, possibly more or fewer than one
entry), concatenated in branch-index order; the join result is invariant
under any permutation (completion order) of the branch updates; and no
merge ever shrinks existing append-class entries — the old list is always
a prefix of the merged one. -/
theorem claim_C4_amended :
    (∀ (w : World) (llm : LLM),
      get_llm w.cfg.reasoning_model w.cfg.provider w.env = .ok llm →
      ∀ (qs : List String) (s : RunState),
        runBranches w (continue_to_web_research { query_list := qs }) =
          .ok (branchUpdates w qs) ∧
        (joinIndexed s (branchUpdates w qs)).search_query = s.search_query ++ qs ∧
        (joinIndexed s (branchUpdates w qs)).web_research_result =
          s.web_research_result ++ qs.map (fun q => (performOut w q).web_research_result) ∧
        (joinIndexed s (branchUpdates w qs)).sources_gathered =
          s.sources_gathered ++ (qs.map fun q => (performOut w q).sources_gathered).flatten ∧
        (joinIndexed s (branchUpdates w qs)).images =
          s.images ++ (qs.map fun q => (performOut w q).images).flatten) ∧
    (∀ (w : World) (qs : List String) (s : RunState) (us : List (Nat × PartialUpdate)),
      us.Perm (branchUpdates w qs) → joinIndexed s us = joinIndexed s (branchUpdates w qs)) ∧
    (∀ (s : RunState) (us : List (Nat × PartialUpdate)),
      s.search_query <+: (joinIndexed s us).search_query ∧
      s.web_research_result <+: (joinIndexed s us).web_research_result ∧
      s.sources_gathered <+: (joinIndexed s us).sources_gathered ∧
      s.images <+: (joinIndexed s us).images) := by
  refine ⟨?_, ?_, ?_⟩
  · intro w llm hllm qs s
    have hjoin := joinIndexed_sorted s (sorted_branchUpdates w qs)
    have hf := foldl_applyUpdate_fields (branchUpdates w qs) s
    refine ⟨?_, ?_, ?_, ?_, ?_⟩
    · rw [runBranches_eq w llm hllm, sends_map_eq]
    · rw [hjoin, hf.1, branchUpdates_map_field w qs (fun u => u.search_query)]
      congr 1
      rw [show (fun q => (branchOutQ w q).search_query) =
        fun q : String => [(performOut w q).search_query] from rfl]
      rw [join_map_singleton (fun q : String => (performOut w q).search_query) qs]
      rw [show (fun q : String => (performOut w q).search_query) = fun q : String => q from
        funext fun q => performOut_search_query w q]
      exact List.map_id qs
    · rw [hjoin, hf.2.1, branchUpdates_map_field w qs (fun u => u.web_research_result)]
      congr 1
      rw [show (fun q => (branchOutQ w q).web_research_result) =
        fun q : String => [(performOut w q).web_research_result] from rfl]
      exact join_map_singleton (fun q : String => (performOut w q).web_research_result) qs
    · rw [hjoin, hf.2.2.1, branchUpdates_map_field w qs (fun u => u.sources_gathered)]
      rfl
    · rw [hjoin, hf.2.2.2, branchUpdates_map_field w qs (fun u => u.images)]
      rfl
  · intro w qs s us hp
    apply joinIndexed_perm s hp
    rw [branchUpdates_keys]
    exact List.nodup_range _
  · intro s us
    have hf := foldl_applyUpdate_fields (List.insertionSort keyLE us) s
    have hj : joinIndexed s us =
        (List.insertionSort keyLE us).foldl (fun acc p => applyUpdate acc p.2) s := rfl
    refine ⟨?_, ?_, ?_, ?_⟩ <;> rw [hj]
    · rw [hf.1]
      exact List.prefix_append _ _
    · rw [hf.2.1]
      exact List.prefix_append _ _
    · rw [hf.2.2.1]
      exact List.prefix_append _ _
    · rw [hf.2.2.2]
      exact List.prefix_append _ _

/-- Witness for claim C4's amended theorem: a concrete two-branch fan-out
and a reversed (completion-order) update list. -/
theorem claim_C4_witness :
    (runBranches wLoop (continue_to_web_research { query_list := ["q1", "q2"] }) =
        .ok (branchUpdates wLoop ["q1", "q2"]) ∧
      (joinIndexed state0 (branchUpdates wLoop ["q1", "q2"])).search_query =
        state0.search_query ++ ["q1", "q2"] ∧
      (joinIndexed state0 (branchUpdates wLoop ["q1", "q2"])).web_research_result =
        state0.web_research_result ++
          ["q1", "q2"].map (fun q => (performOut wLoop q).web_research_result) ∧
      (joinIndexed state0 (branchUpdates wLoop ["q1", "q2"])).sources_gathered =
        state0.sources_gathered ++
          (["q1", "q2"].map fun q => (performOut wLoop q).sources_gathered).flatten ∧
      (joinIndexed state0 (branchUpdates wLoop ["q1", "q2"])).images =
        state0.images ++ (["q1", "q2"].map fun q => (performOut wLoop q).images).flatten) ∧
    joinIndexed state0 (branchUpdates wLoop ["q1", "q2"]).reverse =
      joinIndexed state0 (branchUpdates wLoop ["q1", "q2"]) :=
  ⟨claim_C4_amended.1 wLoop
      { provider := "ollama", model_name := "llama3.1:8b", base_url := "http://localhost:11434" }
      (by decide) ["q1", "q2"] state0,
   claim_C4_amended.2.1 wLoop ["q1", "q2"] state0
      (branchUpdates wLoop ["q1", "q2"]).reverse (by decide)⟩

end Agent
